import Mathlib

/-!
Verification of the DecodingEmotions video-rating survey application.

This file gives a shallow embedding of the core logic of the repository:

* the hierarchical stratified video sampler
  (`stratified_sample_videos` / `_stratified_sample_recursive`
  in `src/pages/videoplayer.py`),
* the rating validator (`_validate_ratings` in `src/pages/videoplayer.py`)
  together with the rating-scale / group loading code
  (`load_rating_scales` in `src/utils/config_loader.py`),
* the dual-backend persistence gateway (`save_rating`, `save_user_data`
  in `src/utils/data_persistence.py`),
* random participant-id generation (`User.generate_random_user_id`
  in `src/utils/user.py`).

Python values flowing through the rating pipeline are modelled by `RValue`
(Python `None`, strings and numbers), Python dicts by association lists,
pandas data frames by a list of rows (each an association list from column
name to cell value) together with the frame's column list, and the random
primitives (`random.sample`, `random.shuffle`, `DataFrame.sample`,
`random.choices`) by oracle functions, constrained in the theorems by the
properties those primitives guarantee.  Python floats are modelled by `ℚ`;
`round` is modelled by `pyRound` (round half to even, as in Python 3).
Exceptions are modelled with `Except`.
-/

/-- Values a Python rating pipeline passes around: `None`, a string, or a
number (slider positions).  Used for submitted scale values, record fields
and device-info entries. -/
inductive RValue where
  | none
  | str (s : String)
  | num (q : ℚ)
deriving DecidableEq, Repr

/-- Python `d.get(key)` on a string-keyed dict: the first binding of the key,
or `None` when absent. -/
def lookupV (m : List (String × RValue)) (t : String) : RValue :=
  (m.lookup t).getD RValue.none

/-- Python truthiness test `not x` for an optional string: `None` and the
empty string are falsy. -/
def optStrFalsy (v : Option String) : Bool :=
  v.getD "" == ""

/-- Python truthiness for an optional integer (`if target_count:`):
`None` and `0` are falsy. -/
def optIntTruthy : Option ℤ → Bool
  | Option.none => false
  | Option.some n => n != 0

/-- Removal of every occurrence of the substring `".mp4"`, scanning left to
right: the effect of Python's `v.replace('.mp4', '')`. -/
def stripMp4Chars : List Char → List Char
  | '.' :: 'm' :: 'p' :: '4' :: rest => stripMp4Chars rest
  | c :: rest => c :: stripMp4Chars rest
  | [] => []

/-- Python `v.replace('.mp4', '')` on a string (videoplayer.py line 46). -/
def pyStripMp4 (s : String) : String :=
  String.mk (stripMp4Chars s.data)

/-- Python `title.lower().replace(' ', '_')` (data_persistence.py line 100):
the snake-cased persistence key of a scale title. -/
def pySnake (t : String) : String :=
  String.mk (t.data.map (fun c => if c == ' ' then '_' else c.toLower))

/-- Python list slicing `l[:n]`: for nonnegative `n` the first `n` elements,
for negative `n` everything but the last `-n` elements. -/
def pySlice (n : ℤ) (l : List String) : List String :=
  if 0 ≤ n then l.take n.toNat else l.take ((l.length : ℤ) + n).toNat

/-- Python 3 `round` (round half to even) applied to an exact rational. -/
def pyRound (q : ℚ) : ℤ :=
  if q - ⌊q⌋ < 1/2 then ⌊q⌋
  else if (1 : ℚ)/2 < q - ⌊q⌋ then ⌊q⌋ + 1
  else if ⌊q⌋ % 2 = 0 then ⌊q⌋ else ⌊q⌋ + 1

/-- A pandas `DataFrame`: the column list together with the rows, each row an
association list from column name to cell value. -/
structure DFrame where
  cols : List String
  rows : List (List (String × String))

/-- Cell access `row[col]` for a data-frame row. -/
def getCell (r : List (String × String)) (c : String) : String :=
  (r.lookup c).getD ""

/-- One entry of the `variables_for_stratification` config list, with the
keys `variable`, `levels` and `proportions` read by the sampler (the field
`var` models the `variable` key; each key may be absent). -/
structure StratEntry where
  var : Option String := Option.none
  levels : List String := []
  proportions : List ℚ := []

/-- Oracle for `DataFrame.sample(n=k, replace=False)`: one possible outcome
of the random row sample. -/
def SampOracle :=
  ℤ → List (List (String × String)) → List (List (String × String))

/-- Oracle for `random.sample(pool, k)` on a list of video filenames. -/
def SampListOracle := ℤ → List String → List String

/-- Oracle for `random.shuffle`: one possible reordering. -/
def ShuffleOracle := List String → List String

/-- What pandas guarantees of `df.sample(n=k, replace=False)` whenever
`0 ≤ k ≤ len(df)`: the result has exactly `k` rows and is a sub-multiset of
the frame's rows (sampling without replacement). -/
def SampOracleOK (samp : SampOracle) : Prop :=
  ∀ n rows, 0 ≤ n → n < (rows.length : ℤ) →
    (samp n rows).length = n.toNat ∧ List.Subperm (samp n rows) rows

/-- What `random.sample(pool, k)` guarantees for `0 ≤ k ≤ len(pool)`. -/
def SampListOK (s : SampListOracle) : Prop :=
  ∀ n l, 0 ≤ n → n < (l.length : ℤ) →
    (s n l).length = n.toNat ∧ List.Subperm (s n l) l

/-- What `random.shuffle` guarantees: the output is a permutation. -/
def ShuffleOK (sh : ShuffleOracle) : Prop :=
  ∀ l, List.Perm (sh l) l

/-- Embedding of `_stratified_sample_recursive` (videoplayer.py lines
71-146).  The Python recursion carries the full config list and a level
index; here the list `cfg` is the suffix of the config from the current
level on.  `target_count` is `None` or an integer, tested with Python
truthiness exactly as the source does. -/
def stratified_sample_recursive (samp : SampOracle) (df : DFrame)
    (cfg : List StratEntry) (target_count : Option ℤ) : List String :=
  match cfg with
  | [] =>
      match target_count with
      | Option.some n =>
          if n ≠ 0 ∧ n < (df.rows.length : ℤ) then
            (samp n df.rows).map (fun r => getCell r "id")
          else
            df.rows.map (fun r => getCell r "id")
      | Option.none => df.rows.map (fun r => getCell r "id")
  | c :: rest =>
      let ids := df.rows.map (fun r => getCell r "id")
      let fallback :=
        match target_count with
        | Option.some n => if n ≠ 0 then pySlice n ids else ids
        | Option.none => ids
      if optStrFalsy c.var || c.levels.isEmpty || c.proportions.isEmpty then
        fallback
      else if c.levels.length ≠ c.proportions.length then
        fallback
      else
        let v := c.var.getD ""
        if v ∉ df.cols then
          fallback
        else
          let filtered := df.rows.filter (fun r => c.levels.contains (getCell r v))
          if filtered.isEmpty then
            fallback
          else
            (c.levels.zip c.proportions).foldl (fun acc lp =>
              let level_rows := filtered.filter (fun r => getCell r v == lp.1)
              if level_rows.length = 0 then acc
              else
                let lt0 : Option ℤ :=
                  match target_count with
                  | Option.some n =>
                      if n ≠ 0 then Option.some (pyRound ((n : ℚ) * lp.2))
                      else Option.none
                  | Option.none => Option.none
                let lt1 : Option ℤ :=
                  match lt0 with
                  | Option.some m =>
                      if m ≠ 0 ∧ (level_rows.length : ℤ) < m then
                        Option.some (level_rows.length : ℤ)
                      else Option.some m
                  | Option.none => Option.none
                acc ++ stratified_sample_recursive samp ⟨df.cols, level_rows⟩ rest lt1)
              []

/-- Embedding of `stratified_sample_videos` (videoplayer.py lines 19-68). -/
def stratified_sample_videos (samp : SampOracle) (sampL : SampListOracle)
    (shuffle : ShuffleOracle) (videos_to_rate : List String)
    (df_metadata : DFrame) (number_of_videos : Option ℤ)
    (strat_config : List StratEntry) : List String :=
  if strat_config.isEmpty then
    match number_of_videos with
    | Option.some n =>
        if n ≠ 0 ∧ n < (videos_to_rate.length : ℤ) then
          shuffle (sampL n videos_to_rate)
        else shuffle videos_to_rate
    | Option.none => shuffle videos_to_rate
  else
    let event_ids := videos_to_rate.map pyStripMp4
    let dfRows := df_metadata.rows.filter (fun r => event_ids.contains (getCell r "id"))
    if dfRows.isEmpty then videos_to_rate
    else
      let target0 : ℤ :=
        match number_of_videos with
        | Option.some n => if n ≠ 0 then n else (dfRows.length : ℤ)
        | Option.none => (dfRows.length : ℤ)
      let target := min target0 (dfRows.length : ℤ)
      let selected_ids :=
        stratified_sample_recursive samp ⟨df_metadata.cols, dfRows⟩ strat_config
          (Option.some target)
      shuffle (selected_ids.map (fun i => i ++ ".mp4"))

/-- A rating-scale definition as read from the rating-scales YAML file.
Each field models the config key of the same name (`stype` models the key
`type`); `Option` marks keys the code reads with a `.get` default:
`required_to_proceed` defaults to `True`, `initial_state` to `'low'`,
`slider_min` to `0`, `slider_max` to `100`, `active` to `False`, and
`group`/`stype` to `None`. -/
structure Scale where
  title : String
  stype : Option String := Option.none
  active : Option Bool := Option.none
  required_to_proceed : Option Bool := Option.none
  group : Option String := Option.none
  initial_state : Option String := Option.none
  slider_min : Option ℚ := Option.none
  slider_max : Option ℚ := Option.none

/-- The individually-required scale titles, as computed when the video
player state is set up (videoplayer.py lines 421-424): scales whose
`required_to_proceed` (default `True`) is truthy and whose `group` is falsy. -/
def required_scale_titles (rating_scales : List Scale) : List String :=
  (rating_scales.filter
      (fun s => s.required_to_proceed.getD true && optStrFalsy s.group)).map
    (fun s => s.title)

/-- A slider's configured initial position (videoplayer.py lines 628-638):
`low` maps to `slider_min`, `high` to `slider_max`, anything else to the
midpoint. -/
def slider_initial_value (s : Scale) : ℚ :=
  let initial_state := s.initial_state.getD "low"
  let smin := s.slider_min.getD 0
  let smax := s.slider_max.getD 100
  if initial_state == "low" then smin
  else if initial_state == "high" then smax
  else (smin + smax) / 2

/-- Python `value is None or value == ''` (videoplayer.py line 623):
a number never equals `''`. -/
def rvalue_is_empty : RValue → Bool
  | RValue.none => true
  | RValue.str s => s == ""
  | RValue.num _ => false

/-- Python `value != initial_value` for a submitted value compared with a
numeric slider initial position: `None` and strings differ from any number. -/
def rvalue_ne_q (v : RValue) (q : ℚ) : Bool :=
  match v with
  | RValue.num x => x != q
  | RValue.str _ => true
  | RValue.none => true

/-- Changed-count of a group's member scales (videoplayer.py lines 617-645):
empty values never count; a slider counts when its value differs from the
configured initial position; any other type counts whenever non-empty. -/
def changed_count (scale_values : List (String × RValue))
    (group_scales : List Scale) : Nat :=
  group_scales.foldl (fun cnt s =>
    let value := lookupV scale_values s.title
    if rvalue_is_empty value then cnt
    else if s.stype == Option.some "slider" then
      if rvalue_ne_q value (slider_initial_value s) then cnt + 1 else cnt
    else cnt + 1) 0

/-- A value stored in the `group_requirements` session dict.  The loader
(config_loader.py line 77) stores the bare integer `number_of_ratings`
(`intReq`); the validator (videoplayer.py lines 606-608) indexes the value
as a dict with keys `number_of_ratings`, `error_msg` and `title`
(`dictReq`).  Keeping both shapes makes the dynamic typing of the Python
pipeline expressible. -/
inductive GroupReq where
  | intReq (n : ℤ)
  | dictReq (number_of_ratings : ℤ) (error_msg : Option String)
      (gtitle : Option String)

/-- The exception Python raises when `group_info['number_of_ratings']` is
evaluated with `group_info` an `int`. -/
def typeErrorMsg : String := "TypeError: 'int' object is not subscriptable"

/-- The generated default quorum error (videoplayer.py lines 652-655). -/
def default_group_msg (gtitle : String) (required : ℤ) (changed : Nat) : String :=
  "Group '" ++ gtitle ++ "': Please rate at least " ++ toString required ++
    " emotions (currently " ++ toString changed ++ "/" ++ toString required ++ ")"

/-- The group-quorum half of `_validate_ratings` (videoplayer.py lines
602-655), iterating the `group_requirements` dict in insertion order.  An
`intReq` value reproduces the `TypeError` the Python code raises there. -/
def validate_groups (scale_values : List (String × RValue))
    (rating_scales : List Scale)
    (group_requirements : List (String × GroupReq)) : Except String (List String) :=
  group_requirements.foldl (fun acc p =>
    match acc with
    | Except.error e => Except.error e
    | Except.ok errors =>
      match p.2 with
      | GroupReq.intReq _ => Except.error typeErrorMsg
      | GroupReq.dictReq required_count error_msg gtitle =>
        let group_scales := rating_scales.filter (fun s => s.group == Option.some p.1)
        let changed := changed_count scale_values group_scales
        if (changed : ℤ) < required_count then
          let msg :=
            if error_msg.getD "" ≠ "" then error_msg.getD ""
            else default_group_msg (gtitle.getD p.1) required_count changed
          Except.ok (errors ++ [msg])
        else Except.ok errors) (Except.ok [])

/-- Embedding of `_validate_ratings` (videoplayer.py lines 581-657):
collects the missing individually-required titles into one aggregated line,
then walks the group requirements; an exception anywhere aborts the call. -/
def validate_ratings (required_scales : List String)
    (group_requirements : List (String × GroupReq)) (rating_scales : List Scale)
    (scale_values : List (String × RValue)) : Except String (List String) :=
  let missing_scales :=
    required_scales.filter (fun t => rvalue_is_empty (lookupV scale_values t))
  let errors0 :=
    if missing_scales.isEmpty then []
    else ["Required fields: " ++ String.intercalate ", " missing_scales]
  match validate_groups scale_values rating_scales group_requirements with
  | Except.error e => Except.error e
  | Except.ok gerrs => Except.ok (errors0 ++ gerrs)

/-- A group definition from the rating-scales YAML (`groups` section),
fields as read with `.get` in config_loader.py lines 73-77 (`gtitle`
models the key `title`). -/
structure GroupCfg where
  id : Option String := Option.none
  gtitle : Option String := Option.none
  number_of_ratings : Option ℤ := Option.none
  error_msg : Option String := Option.none

/-- The `group_requirements` dict built by `load_rating_scales`
(config_loader.py lines 72-77): for every group with a truthy id, the bare
integer `number_of_ratings` (default 0). -/
def load_group_requirements (groups : List GroupCfg) : List (String × GroupReq) :=
  groups.foldl (fun acc g =>
    if optStrFalsy g.id then acc
    else acc ++ [(g.id.getD "", GroupReq.intReq (g.number_of_ratings.getD 0))]) []

/-- Active-scale filter of `load_rating_scales` (config_loader.py line 85). -/
def active_scales (all_scales : List Scale) : List Scale :=
  all_scales.filter (fun s => s.active.getD false)

/-- Number of active scales assigned to a group id
(config_loader.py lines 102-106). -/
def count_group_scales (scales : List Scale) (gid : String) : Nat :=
  (scales.filter (fun s => s.group == Option.some gid)).length

/-- Embedding of `_validate_group_requirements` (config_loader.py lines
96-118): a quorum larger than the group's active scale count is clamped
down to that count. -/
def clamp_group_requirements (scales : List Scale)
    (reqs : List (String × GroupReq)) : List (String × GroupReq) :=
  reqs.map (fun p =>
    match p.2 with
    | GroupReq.intReq n =>
        let c := count_group_scales scales p.1
        if (c : ℤ) < n then (p.1, GroupReq.intReq (c : ℤ)) else p
    | _ => p)

/-- The scales and group requirements `load_rating_scales`
(config_loader.py lines 37-94, new-format path) hands to the video player:
active scales, and the clamped int-valued `group_requirements` dict. -/
def load_rating_scales_data (groups : List GroupCfg) (all_scales : List Scale) :
    List Scale × List (String × GroupReq) :=
  let scales := active_scales all_scales
  (scales, clamp_group_requirements scales (load_group_requirements groups))

/-- Outcome of a call into the Google-Sheets backend: it returned a boolean,
or raised. -/
inductive GsOutcome where
  | ret (b : Bool)
  | exn
deriving DecidableEq

/-- Outcome of the local JSON write block: it completed, or raised. -/
inductive LocalOutcome where
  | ok
  | exn
deriving DecidableEq

/-- Python `storage_mode in ['online', 'both']`. -/
def storage_enables_online (m : String) : Bool := ["online", "both"].contains m

/-- Python `storage_mode in ['local', 'both']`. -/
def storage_enables_local (m : String) : Bool := ["local", "both"].contains m

/-- Embedding of `save_user_data` (data_persistence.py lines 16-72), with
the backend effects abstracted into their outcomes: each enabled backend is
attempted inside a `try` that turns an exception into a `False` success
flag, and the function returns the disjunction of the two flags. -/
def save_user_data (storage_mode : String) (gs : GsOutcome) (lo : LocalOutcome) : Bool :=
  let gsheets_success :=
    if storage_enables_online storage_mode then
      match gs with
      | GsOutcome.ret b => b
      | GsOutcome.exn => false
    else false
  let local_json_success :=
    if storage_enables_local storage_mode then
      match lo with
      | LocalOutcome.ok => true
      | LocalOutcome.exn => false
    else false
  gsheets_success || local_json_success

/-- The keys copied from `device_info` into a rating record
(data_persistence.py lines 106-113). -/
def device_keys : List String :=
  ["device_type", "os", "browser", "browser_version", "maxTouchPoints",
   "screen_width", "screen_height", "user_agent"]

/-- Python dict lookup `d[k]` / `d.get(k)` on an insertion-ordered dict
modelled as an association list: the binding of the first matching key. -/
def dict_get : List (String × RValue) → String → Option RValue
  | [], _ => Option.none
  | p :: rest, k => if p.1 = k then Option.some p.2 else dict_get rest k

/-- Python dict assignment `d[k] = v`: replace the binding in place if the
key exists, else append it. -/
def dict_set (d : List (String × RValue)) (k : String) (v : RValue) :
    List (String × RValue) :=
  if d.any (fun p => p.1 = k) then
    d.map (fun p => if p.1 = k then (k, v) else p)
  else d ++ [(k, v)]

/-- The `rating_data` dict built by `save_rating` (data_persistence.py lines
92-113): `user_id` and `id` first, then one snake-cased key per submitted
scale, then — when device info is present — the eight device keys. -/
def build_rating_data (user_id action_id : String)
    (scale_values device_info : List (String × RValue)) : List (String × RValue) :=
  let base := [("user_id", RValue.str user_id), ("id", RValue.str action_id)]
  let withScales := scale_values.foldl (fun d p => dict_set d (pySnake p.1) p.2) base
  if device_info.isEmpty then withScales
  else device_keys.foldl (fun d k => dict_set d k (lookupV device_info k)) withScales

/-- Embedding of `save_rating` (data_persistence.py lines 74-150).  Returns
the boolean result together with the list of local files written, each as
(filename, record). -/
def save_rating (storage_mode : String) (gs : GsOutcome) (lo : LocalOutcome)
    (user_id action_id : String) (scale_values device_info : List (String × RValue)) :
    Bool × List (String × List (String × RValue)) :=
  let rating_data := build_rating_data user_id action_id scale_values device_info
  let gsheets_success :=
    if storage_enables_online storage_mode then
      match gs with
      | GsOutcome.ret b => b
      | GsOutcome.exn => false
    else false
  let localPair :=
    if storage_enables_local storage_mode then
      match lo with
      | LocalOutcome.ok =>
          (true, [(user_id ++ "_" ++ action_id ++ ".json", rating_data)])
      | LocalOutcome.exn => (false, ([] : List (String × List (String × RValue))))
    else (false, [])
  (gsheets_success || localPair.1, localPair.2)

/-- The `User` object of src/utils/user.py with the fields set in
`__init__` (the free-form `data` dict is omitted: no claim touches it). -/
structure User where
  user_id : String := ""
  gender : String := "Not specified"
  age : ℤ := 0
  nationality : String := ""
  player_exp : ℤ := 0
  coach_exp : ℤ := 0
  watch_exp : ℤ := 0
  license : String := "Not specified"

/-- Oracle for the random draws of one id-generation attempt:
`random.choices(string.ascii_uppercase, k=4)` and
`random.choices(string.digits, k=2)` at a given attempt index. -/
def DrawOracle := Nat → (Fin 26 × Fin 26 × Fin 26 × Fin 26) × (Fin 10 × Fin 10)

/-- The uppercase letter with the given index in `string.ascii_uppercase`. -/
def upper_char (i : Fin 26) : Char := Char.ofNat (65 + i.val)

/-- The digit with the given index in `string.digits`. -/
def digit_char (i : Fin 10) : Char := Char.ofNat (48 + i.val)

/-- The candidate id built from one attempt's draws (user.py lines 42-47):
four uppercase letters followed by two digits. -/
def candidate_id (d : (Fin 26 × Fin 26 × Fin 26 × Fin 26) × (Fin 10 × Fin 10)) :
    String :=
  String.mk [upper_char d.1.1, upper_char d.1.2.1, upper_char d.1.2.2.1,
    upper_char d.1.2.2.2, digit_char d.2.1, digit_char d.2.2]

/-- The retry loop of `generate_random_user_id` (user.py lines 38-57):
`attempts` counts collisions so far, `fuel` the remaining attempts out of
`max_attempts = 1000`; exhausting the fuel raises. -/
def gen_id_go (draws : DrawOracle) (existing : List String) :
    Nat → Nat → Except String String
  | _, 0 => Except.error "Failed to generate unique user ID after 1000 attempts"
  | attempts, fuel + 1 =>
    let new_id := candidate_id (draws attempts)
    if existing.contains new_id then gen_id_go draws existing (attempts + 1) fuel
    else Except.ok new_id

/-- Embedding of `User.generate_random_user_id` (user.py lines 24-57): on
success the id is stored on the user and returned; a `None` argument is
replaced by the empty list. -/
def User.generate_random_user_id (u : User) (draws : DrawOracle)
    (existing_user_ids : Option (List String)) : Except String (User × String) :=
  let ex := existing_user_ids.getD []
  (gen_id_go draws ex 0 1000).map (fun nid => ({ u with user_id := nid }, nid))

/-- A sample oracle that deterministically takes the first rows: one valid
outcome of `DataFrame.sample`. -/
def take_samp : SampOracle := fun n rows => rows.take n.toNat

/-- A list-sample oracle that takes the first elements: one valid outcome of
`random.sample`. -/
def take_sampL : SampListOracle := fun n l => l.take n.toNat

/-- The identity shuffle: one valid outcome of `random.shuffle`. -/
def id_shuffle : ShuffleOracle := fun l => l

/-- Format check for a generated participant id: 6 characters, 4 uppercase
letters followed by 2 digits. -/
def id_format (s : String) : Bool :=
  s.length == 6 &&
  (s.data.take 4).all (fun c => 'A' ≤ c && c ≤ 'Z') &&
  (s.data.drop 4).all (fun c => '0' ≤ c && c ≤ '9')

/-- A fresh `User` as built by `User.__init__`. -/
def user0 : User := {}

/-- A draw oracle that always draws the first letter and digit, producing
the candidate `AAAA00` at every attempt. -/
def draws0 : DrawOracle := fun _ => ((0, 0, 0, 0), (0, 0))

/-- Whether the metadata table tags a video filename with the given level
of the given stratification variable. -/
def tagged_with (md : DFrame) (variable_name level : String) (v : String) : Bool :=
  md.rows.any (fun r =>
    getCell r "id" == pyStripMp4 v && getCell r variable_name == level)

/-- Metadata for the C3 scenario: ten videos, six tagged `win` and four
tagged `loss`. -/
def md_c3 : DFrame :=
  ⟨["id", "outcome"],
   [[("id", "w1"), ("outcome", "win")], [("id", "w2"), ("outcome", "win")],
    [("id", "w3"), ("outcome", "win")], [("id", "w4"), ("outcome", "win")],
    [("id", "w5"), ("outcome", "win")], [("id", "w6"), ("outcome", "win")],
    [("id", "l1"), ("outcome", "loss")], [("id", "l2"), ("outcome", "loss")],
    [("id", "l3"), ("outcome", "loss")], [("id", "l4"), ("outcome", "loss")]]⟩

/-- The ten-video pool of the C3 scenario. -/
def pool_c3 : List String :=
  ["w1.mp4", "w2.mp4", "w3.mp4", "w4.mp4", "w5.mp4", "w6.mp4",
   "l1.mp4", "l2.mp4", "l3.mp4", "l4.mp4"]

/-- The C3 stratification: outcome ∈ {win, loss} at proportions 0.5/0.5. -/
def cfg_c3 : List StratEntry :=
  [{ var := Option.some "outcome", levels := ["win", "loss"],
     proportions := [1/2, 1/2] }]

/-- The six win-tagged metadata rows of the C3 scenario. -/
def win_rows_c3 : List (List (String × String)) :=
  [[("id", "w1"), ("outcome", "win")], [("id", "w2"), ("outcome", "win")],
   [("id", "w3"), ("outcome", "win")], [("id", "w4"), ("outcome", "win")],
   [("id", "w5"), ("outcome", "win")], [("id", "w6"), ("outcome", "win")]]

/-- The four loss-tagged metadata rows of the C3 scenario. -/
def loss_rows_c3 : List (List (String × String)) :=
  [[("id", "l1"), ("outcome", "loss")], [("id", "l2"), ("outcome", "loss")],
   [("id", "l3"), ("outcome", "loss")], [("id", "l4"), ("outcome", "loss")]]

/-- The sampler run of the C3 scenario with target 4, for given random
outcomes. -/
def c3_result (samp : SampOracle) (sampL : SampListOracle)
    (shuffle : ShuffleOracle) : List String :=
  stratified_sample_videos samp sampL shuffle pool_c3 md_c3 (Option.some 4) cfg_c3

/-- Metadata for the C1 counterexample: six videos over three levels of a
variable `grp`, two videos per level. -/
def md_c1 : DFrame :=
  ⟨["id", "grp"],
   [[("id", "a1"), ("grp", "a")], [("id", "a2"), ("grp", "a")],
    [("id", "b1"), ("grp", "b")], [("id", "b2"), ("grp", "b")],
    [("id", "c1"), ("grp", "c")], [("id", "c2"), ("grp", "c")]]⟩

/-- The six-video pool of the C1 counterexample. -/
def pool_c1 : List String :=
  ["a1.mp4", "a2.mp4", "b1.mp4", "b2.mp4", "c1.mp4", "c2.mp4"]

/-- The C1 counterexample stratification: proportions 0.32 / 0.32 / 0.36,
summing to exactly 1. -/
def cfg_c1 : List StratEntry :=
  [{ var := Option.some "grp", levels := ["a", "b", "c"],
     proportions := [8/25, 8/25, 9/25] }]

/-- The groups section of the C2 scenario: one group `emotions` with quorum
2 and no custom error message. -/
def groups_c2 : List GroupCfg :=
  [{ id := Option.some "emotions", gtitle := Option.some "Emotions",
     number_of_ratings := Option.some 2 }]

/-- The scales of the C2 scenario: three active slider scales in the
`emotions` group. -/
def scales_c2 : List Scale :=
  [{ title := "Joy", stype := Option.some "slider", active := Option.some true,
     group := Option.some "emotions", slider_min := Option.some 0,
     slider_max := Option.some 100 },
   { title := "Fear", stype := Option.some "slider", active := Option.some true,
     group := Option.some "emotions", slider_min := Option.some 0,
     slider_max := Option.some 100 },
   { title := "Anger", stype := Option.some "slider", active := Option.some true,
     group := Option.some "emotions", slider_min := Option.some 0,
     slider_max := Option.some 100 }]

/-- A C2 submission: one slider moved, two left at their initial value. -/
def vals_c2 : List (String × RValue) :=
  [("Joy", RValue.num 50), ("Fear", RValue.num 0), ("Anger", RValue.num 0)]

/-- The groups section of the C4 scenario: one group `emotions` with quorum 1. -/
def groups_c4 : List GroupCfg :=
  [{ id := Option.some "emotions", number_of_ratings := Option.some 1 }]

/-- The scales of the C4 scenario: an individually-required text scale
`Comments` and a discrete scale `Joy` in the `emotions` group. -/
def scales_c4 : List Scale :=
  [{ title := "Comments", stype := Option.some "text",
     active := Option.some true },
   { title := "Joy", stype := Option.some "discrete",
     active := Option.some true, group := Option.some "emotions" }]

/-- A C4 submission: the group satisfied (`Joy` answered), `Comments` left
empty. -/
def vals_c4 : List (String × RValue) :=
  [("Joy", RValue.str "3")]

/-! ## Shared lemmas -/

theorem take_samp_ok : SampOracleOK take_samp := by
  intro n rows h0 hlt
  refine ⟨?_, ((List.take_sublist n.toNat rows).subperm)⟩
  rw [take_samp, List.length_take]
  omega

theorem take_sampL_ok : SampListOK take_sampL := by
  intro n l h0 hlt
  refine ⟨?_, ((List.take_sublist n.toNat l).subperm)⟩
  rw [take_sampL, List.length_take]
  omega

theorem id_shuffle_ok : ShuffleOK id_shuffle := fun l => List.Perm.refl l

theorem pyRound_nonneg (q : ℚ) (h : 0 ≤ q) : 0 ≤ pyRound q := by
  have hf : 0 ≤ ⌊q⌋ := Int.floor_nonneg.mpr h
  unfold pyRound
  split
  · exact hf
  · split
    · omega
    · split
      · exact hf
      · omega

/-! ## C5 -/

/-- C5: for every record and every storage mode among `local`, `online` and
`both`, `save_user_data` and `save_rating` return `true` exactly when at
least one enabled backend succeeded (the Google-Sheets call returned `True`,
or the local JSON write completed); when every enabled backend fails they
return `false` instead of raising — backend exceptions are absorbed by the
embedded `try` blocks, so the functions are total. -/
theorem c5_save_success_iff (storage_mode : String) (gs : GsOutcome)
    (lo : LocalOutcome) (user_id action_id : String)
    (scale_values device_info : List (String × RValue))
    (hm : storage_mode = "local" ∨ storage_mode = "online" ∨ storage_mode = "both") :
    (save_user_data storage_mode gs lo = true ↔
      (storage_enables_online storage_mode = true ∧ gs = GsOutcome.ret true) ∨
        (storage_enables_local storage_mode = true ∧ lo = LocalOutcome.ok))
    ∧ ((save_rating storage_mode gs lo user_id action_id scale_values device_info).1 = true ↔
      (storage_enables_online storage_mode = true ∧ gs = GsOutcome.ret true) ∨
        (storage_enables_local storage_mode = true ∧ lo = LocalOutcome.ok)) := by
  rcases hm with h | h | h <;> subst h <;>
    rcases gs with b | _ <;>
    rcases lo with _ | _ <;>
    first
      | (rcases b with _ | _ <;>
          simp [save_user_data, save_rating, storage_enables_online,
            storage_enables_local])
      | simp [save_user_data, save_rating, storage_enables_online,
          storage_enables_local]

/-- Witness for C5 at a concrete input: mode `both`, remote raising, local
write succeeding. -/
theorem c5_save_success_iff_witness :
    (save_user_data "both" GsOutcome.exn LocalOutcome.ok = true ↔
      (storage_enables_online "both" = true ∧ GsOutcome.exn = GsOutcome.ret true) ∨
        (storage_enables_local "both" = true ∧ LocalOutcome.ok = LocalOutcome.ok))
    ∧ ((save_rating "both" GsOutcome.exn LocalOutcome.ok "u1" "v1" [] []).1 = true ↔
      (storage_enables_online "both" = true ∧ GsOutcome.exn = GsOutcome.ret true) ∨
        (storage_enables_local "both" = true ∧ LocalOutcome.ok = LocalOutcome.ok)) :=
  c5_save_success_iff "both" GsOutcome.exn LocalOutcome.ok "u1" "v1" [] []
    (Or.inr (Or.inr rfl))


/-! ## C6 -/

theorem dict_get_cons (p : String × RValue) (d : List (String × RValue)) (k : String) :
    dict_get (p :: d) k = if p.1 = k then Option.some p.2 else dict_get d k := rfl

theorem dict_get_set_map (d : List (String × RValue)) (k : String) (v : RValue)
    (h : d.any (fun p => decide (p.1 = k)) = true) :
    dict_get (d.map (fun p => if p.1 = k then (k, v) else p)) k = Option.some v := by
  induction d with
  | nil => simp at h
  | cons p rest ih =>
    by_cases hp : p.1 = k
    · rw [List.map_cons, if_pos hp, dict_get_cons]
      simp
    · rw [List.map_cons, if_neg hp, dict_get_cons, if_neg hp]
      simp only [List.any_cons, Bool.or_eq_true, decide_eq_true_eq] at h
      rcases h with h1 | h2
      · exact absurd h1 hp
      · exact ih (by simpa using h2)

theorem dict_get_map_of_ne (d : List (String × RValue)) (k k2 : String) (v : RValue)
    (h : k2 ≠ k) :
    dict_get (d.map (fun p => if p.1 = k then (k, v) else p)) k2 = dict_get d k2 := by
  induction d with
  | nil => rfl
  | cons p rest ih =>
    by_cases hp : p.1 = k
    · rw [List.map_cons, if_pos hp, dict_get_cons, dict_get_cons]
      have h1 : ¬ k = k2 := fun he => h he.symm
      have h2 : ¬ p.1 = k2 := hp ▸ h1
      rw [if_neg h1, if_neg h2]
      exact ih
    · rw [List.map_cons, if_neg hp, dict_get_cons, dict_get_cons]
      by_cases hq : p.1 = k2
      · rw [if_pos hq, if_pos hq]
      · rw [if_neg hq, if_neg hq]
        exact ih

theorem dict_get_append_single_self (d : List (String × RValue)) (k : String)
    (v : RValue) (h : ∀ p ∈ d, p.1 ≠ k) :
    dict_get (d ++ [(k, v)]) k = Option.some v := by
  induction d with
  | nil => simp [dict_get]
  | cons p rest ih =>
    rw [List.cons_append, dict_get_cons, if_neg (h p (List.mem_cons_self p rest))]
    exact ih (fun q hq => h q (List.mem_cons_of_mem p hq))

theorem dict_get_append_single_ne (d : List (String × RValue)) (k k2 : String)
    (v : RValue) (h : k2 ≠ k) :
    dict_get (d ++ [(k, v)]) k2 = dict_get d k2 := by
  induction d with
  | nil =>
    rw [List.nil_append, dict_get_cons, if_neg (fun he : k = k2 => h he.symm)]
  | cons p rest ih =>
    rw [List.cons_append, dict_get_cons, dict_get_cons]
    by_cases hq : p.1 = k2
    · rw [if_pos hq, if_pos hq]
    · rw [if_neg hq, if_neg hq]
      exact ih

theorem dict_set_get_self (d : List (String × RValue)) (k : String) (v : RValue) :
    dict_get (dict_set d k v) k = Option.some v := by
  unfold dict_set
  by_cases hany : d.any (fun p => decide (p.1 = k)) = true
  · rw [if_pos hany]
    exact dict_get_set_map d k v hany
  · rw [if_neg hany]
    refine dict_get_append_single_self d k v ?_
    intro p hp he
    exact hany (List.any_eq_true.mpr ⟨p, hp, decide_eq_true he⟩)

theorem dict_set_get_ne (d : List (String × RValue)) (k k2 : String) (v : RValue)
    (h : k2 ≠ k) : dict_get (dict_set d k v) k2 = dict_get d k2 := by
  unfold dict_set
  by_cases hany : d.any (fun p => decide (p.1 = k)) = true
  · rw [if_pos hany]
    exact dict_get_map_of_ne d k k2 v h
  · rw [if_neg hany]
    exact dict_get_append_single_ne d k k2 v h

theorem foldl_dict_set_preserve (sv : List (String × RValue)) (a : String)
    (h : ∀ p ∈ sv, pySnake p.1 ≠ a) :
    ∀ d : List (String × RValue),
      dict_get (sv.foldl (fun d2 q => dict_set d2 (pySnake q.1) q.2) d) a =
        dict_get d a := by
  induction sv with
  | nil => intro d; rfl
  | cons q rest ih =>
    intro d
    rw [List.foldl_cons, ih (fun p hp => h p (List.mem_cons_of_mem q hp)),
      dict_set_get_ne _ _ _ _ (Ne.symm (h q (List.mem_cons_self q rest)))]

theorem foldl_dict_set_keys_preserve (ks : List String) (g : String → RValue)
    (a : String) (h : a ∉ ks) :
    ∀ d : List (String × RValue),
      dict_get (ks.foldl (fun d2 k => dict_set d2 k (g k)) d) a = dict_get d a := by
  induction ks with
  | nil => intro d; rfl
  | cons k rest ih =>
    intro d
    have h1 : a ≠ k := fun he => h (he ▸ List.mem_cons_self k rest)
    rw [List.foldl_cons, ih (fun hm => h (List.mem_cons_of_mem k hm)),
      dict_set_get_ne _ _ _ _ h1]

theorem foldl_dict_set_found (sv : List (String × RValue))
    (hnd : (sv.map (fun p => pySnake p.1)).Nodup) :
    ∀ p ∈ sv, ∀ d0 : List (String × RValue),
      dict_get (sv.foldl (fun d2 q => dict_set d2 (pySnake q.1) q.2) d0)
        (pySnake p.1) = Option.some p.2 := by
  induction sv with
  | nil => intro p hp; exact absurd hp (List.not_mem_nil p)
  | cons q rest ih =>
    intro p hp d0
    rw [List.map_cons, List.nodup_cons] at hnd
    rcases List.mem_cons.mp hp with rfl | hp2
    · rw [List.foldl_cons,
        foldl_dict_set_preserve rest (pySnake p.1)
          (fun r hr he =>
            hnd.1 (he ▸ List.mem_map_of_mem (fun p2 => pySnake p2.1) hr))]
      exact dict_set_get_self _ _ _
    · rw [List.foldl_cons]
      exact ih hnd.2 p hp2 _

/-- C6 (amended): saving a rating with mode `both` while the remote backend
fails (returns `False` or raises) still returns `true` and writes exactly one
local file `{user_id}_{action_id}.json`; provided the snake-cased scale
titles are pairwise distinct and none of them collides with one of the eight
device-info keys, the written record maps every snake-cased title to the
submitted value.  (The provisos are necessary: Python dict assignment lets a
later colliding key overwrite an earlier one, see `c6_counterexample`.) -/
theorem c6_local_write_on_remote_failure (user_id action_id : String)
    (scale_values device_info : List (String × RValue)) (gs : GsOutcome)
    (hgs : gs = GsOutcome.ret false ∨ gs = GsOutcome.exn)
    (hnd : (scale_values.map (fun p => pySnake p.1)).Nodup)
    (hdev : ∀ p ∈ scale_values, pySnake p.1 ∉ device_keys) :
    (save_rating "both" gs LocalOutcome.ok user_id action_id scale_values
        device_info).1 = true
    ∧ (save_rating "both" gs LocalOutcome.ok user_id action_id scale_values
        device_info).2 =
      [(user_id ++ "_" ++ action_id ++ ".json",
        build_rating_data user_id action_id scale_values device_info)]
    ∧ ∀ p ∈ scale_values,
        dict_get (build_rating_data user_id action_id scale_values device_info)
          (pySnake p.1) = Option.some p.2 := by
  refine ⟨?_, ?_, ?_⟩
  · rcases hgs with rfl | rfl <;>
      simp [save_rating, storage_enables_online, storage_enables_local]
  · rcases hgs with rfl | rfl <;>
      simp [save_rating, storage_enables_online, storage_enables_local]
  · intro p hp
    unfold build_rating_data
    by_cases hdi : device_info.isEmpty
    · rw [if_pos hdi]
      exact foldl_dict_set_found scale_values hnd p hp _
    · rw [if_neg hdi,
        foldl_dict_set_keys_preserve device_keys
          (fun k => lookupV device_info k) (pySnake p.1) (hdev p hp)]
      exact foldl_dict_set_found scale_values hnd p hp _

/-- Counterexample to C6 as stated: the two distinct submitted titles `A B`
and `A_B` snake-case to the same record key `a_b`, and the later one
overwrites the earlier, so the written record does not map the first title's
key to that title's submitted value. -/
theorem c6_counterexample :
    ¬ dict_get (build_rating_data "u1" "v1"
        [("A B", RValue.str "1"), ("A_B", RValue.str "2")] [])
        (pySnake "A B") = Option.some (RValue.str "1") := by decide

/-- Witness for C6 at a concrete input: one scale `Mood`, remote raising. -/
theorem c6_local_write_on_remote_failure_witness :
    (save_rating "both" GsOutcome.exn LocalOutcome.ok "u1" "v1"
        [("Mood", RValue.str "calm")] []).1 = true
    ∧ (save_rating "both" GsOutcome.exn LocalOutcome.ok "u1" "v1"
        [("Mood", RValue.str "calm")] []).2 =
      [("u1_v1.json",
        build_rating_data "u1" "v1" [("Mood", RValue.str "calm")] [])]
    ∧ dict_get (build_rating_data "u1" "v1" [("Mood", RValue.str "calm")] [])
        (pySnake "Mood") = Option.some (RValue.str "calm") := by
  have h := c6_local_write_on_remote_failure "u1" "v1"
    [("Mood", RValue.str "calm")] [] GsOutcome.exn (Or.inr rfl)
    (by decide) (by decide)
  exact ⟨h.1, h.2.1, h.2.2 ("Mood", RValue.str "calm") (by decide)⟩

/-! ## C7 -/

theorem candidate_id_format (d : (Fin 26 × Fin 26 × Fin 26 × Fin 26) × (Fin 10 × Fin 10)) :
    id_format (candidate_id d) = true := by
  obtain ⟨⟨a, b, c, d4⟩, e, f⟩ := d
  have hu : ∀ i : Fin 26, ('A' ≤ upper_char i && upper_char i ≤ 'Z') = true := by decide
  have hd : ∀ i : Fin 10, ('0' ≤ digit_char i && digit_char i ≤ '9') = true := by decide
  simp [id_format, candidate_id, String.length, hu, hd]

theorem gen_id_go_ok_spec (draws : DrawOracle) (ex : List String) :
    ∀ fuel attempts nid, gen_id_go draws ex attempts fuel = Except.ok nid →
      nid ∉ ex ∧ ∃ n, nid = candidate_id (draws n) := by
  intro fuel
  induction fuel with
  | zero => intro attempts nid h; exact absurd h (by simp [gen_id_go])
  | succ fuel ih =>
    intro attempts nid h
    rw [gen_id_go] at h
    by_cases hc : ex.contains (candidate_id (draws attempts)) = true
    · rw [if_pos hc] at h
      exact ih _ _ h
    · rw [if_neg hc] at h
      cases h
      refine ⟨fun hmem => hc (List.elem_iff.mpr hmem), attempts, rfl⟩

theorem gen_id_go_error_iff (draws : DrawOracle) (ex : List String) :
    ∀ fuel attempts, (∃ e, gen_id_go draws ex attempts fuel = Except.error e) ↔
      ∀ n, attempts ≤ n → n < attempts + fuel → candidate_id (draws n) ∈ ex := by
  intro fuel
  induction fuel with
  | zero =>
    intro attempts
    constructor
    · intro _ n h1 h2
      omega
    · intro _
      exact ⟨_, rfl⟩
  | succ fuel ih =>
    intro attempts
    rw [gen_id_go]
    by_cases hc : ex.contains (candidate_id (draws attempts)) = true
    · rw [if_pos hc]
      rw [ih (attempts + 1)]
      constructor
      · intro h n h1 h2
        rcases Nat.eq_or_lt_of_le h1 with rfl | h3
        · exact List.elem_iff.mp hc
        · exact h n h3 (by omega)
      · intro h n h1 h2
        exact h n (by omega) (by omega)
    · rw [if_neg hc]
      constructor
      · intro h
        rcases h with ⟨e, he⟩
        exact absurd he (by simp)
      · intro h
        exact absurd (List.elem_iff.mpr (h attempts (Nat.le_refl _) (by omega))) hc

/-- C7: for every list of existing ids and every outcome of the random
draws, `User.generate_random_user_id` either returns an id of 4 uppercase
letters followed by 2 digits that is not in the existing list, storing it as
the user's id — it never returns an id already in the list — or raises,
and it raises exactly when all 1000 attempted candidates (one per attempt)
collide with the existing list. -/
theorem c7_generate_random_user_id (u : User) (draws : DrawOracle)
    (existing_user_ids : Option (List String)) :
    (∀ u2 nid, User.generate_random_user_id u draws existing_user_ids =
        Except.ok (u2, nid) →
      nid ∉ existing_user_ids.getD [] ∧ u2.user_id = nid ∧ id_format nid = true)
    ∧ ((∃ e, User.generate_random_user_id u draws existing_user_ids =
        Except.error e) ↔
      ∀ n, n < 1000 → candidate_id (draws n) ∈ existing_user_ids.getD []) := by
  constructor
  · intro u2 nid h
    have h2 : Except.map (fun nid => ({ u with user_id := nid }, nid))
        (gen_id_go draws (existing_user_ids.getD []) 0 1000) =
        Except.ok (u2, nid) := h
    cases hg : gen_id_go draws (existing_user_ids.getD []) 0 1000 with
    | error e =>
      rw [hg] at h2
      exact absurd h2 (by simp [Except.map])
    | ok nid2 =>
      rw [hg] at h2
      simp only [Except.map, Except.ok.injEq, Prod.mk.injEq] at h2
      obtain ⟨hn, he⟩ := gen_id_go_ok_spec draws _ 1000 0 nid2 hg
      obtain ⟨n, rfl⟩ := he
      obtain ⟨hu2, hnid⟩ := h2
      subst hnid
      subst hu2
      exact ⟨hn, rfl, candidate_id_format (draws n)⟩
  · have base := gen_id_go_error_iff draws (existing_user_ids.getD []) 1000 0
    simp only [Nat.zero_le, Nat.zero_add, true_implies] at base
    have hmap : ∀ r : Except String String,
        (∃ e, Except.map (fun nid => (({ u with user_id := nid } : User), nid)) r =
          Except.error e) ↔ ∃ e, r = Except.error e := by
      intro r
      cases r <;> simp [Except.map]
    exact Iff.trans (hmap (gen_id_go draws (existing_user_ids.getD []) 0 1000)) base

/-- Witness for C7: a draw oracle that always produces `AAAA00`, and an
existing list not containing it. -/
theorem c7_generate_random_user_id_witness :
    "AAAA00" ∉ (Option.some ["ZZZZ99"] : Option (List String)).getD []
    ∧ ({ user0 with user_id := "AAAA00" } : User).user_id = "AAAA00"
    ∧ id_format "AAAA00" = true :=
  (c7_generate_random_user_id user0 draws0 (Option.some ["ZZZZ99"])).1
    { user0 with user_id := "AAAA00" } "AAAA00" rfl

/-! ## C2 -/

/-- C2 (code-bug evidence): with one declared group `emotions` of quorum 2
over three active slider scales, `load_rating_scales` stores the bare
integer 2 as the group's requirement; submitting any rating then makes
`_validate_ratings` evaluate `group_info['number_of_ratings']` on that
integer and raise a `TypeError` instead of returning the claimed error
list. -/
theorem c2_group_quorum_type_error :
    (load_rating_scales_data groups_c2 scales_c2).2 =
      [("emotions", GroupReq.intReq 2)]
    ∧ validate_ratings
        (required_scale_titles (load_rating_scales_data groups_c2 scales_c2).1)
        (load_rating_scales_data groups_c2 scales_c2).2
        (load_rating_scales_data groups_c2 scales_c2).1 vals_c2 =
      Except.error typeErrorMsg := by
  constructor
  · rfl
  · rfl

/-! ## C4 -/

theorem intercalate_single (a : String) : String.intercalate ", " [a] = a := by
  show String.intercalate.go a ", " [] = a
  simp [String.intercalate.go]

theorem validate_groups_ok_of_met (scale_values : List (String × RValue))
    (rating_scales : List Scale) :
    ∀ (reqs : List (String × GroupReq)),
      (∀ p ∈ reqs, ∃ k emsg gt, p.2 = GroupReq.dictReq k emsg gt ∧
        ¬ ((changed_count scale_values
            (rating_scales.filter (fun s => s.group == Option.some p.1)) : ℤ) < k)) →
      validate_groups scale_values rating_scales reqs = Except.ok [] := by
  have main : ∀ (reqs : List (String × GroupReq)) (errs : List String),
      (∀ p ∈ reqs, ∃ k emsg gt, p.2 = GroupReq.dictReq k emsg gt ∧
        ¬ ((changed_count scale_values
            (rating_scales.filter (fun s => s.group == Option.some p.1)) : ℤ) < k)) →
      reqs.foldl (fun acc p =>
        match acc with
        | Except.error e => Except.error e
        | Except.ok errors =>
          match p.2 with
          | GroupReq.intReq _ => Except.error typeErrorMsg
          | GroupReq.dictReq required_count error_msg gtitle =>
            let group_scales := rating_scales.filter (fun s => s.group == Option.some p.1)
            let changed := changed_count scale_values group_scales
            if (changed : ℤ) < required_count then
              let msg :=
                if error_msg.getD "" ≠ "" then error_msg.getD ""
                else default_group_msg (gtitle.getD p.1) required_count changed
              Except.ok (errors ++ [msg])
            else Except.ok errors) (Except.ok errs) = Except.ok errs := by
    intro reqs
    induction reqs with
    | nil => intro errs _; rfl
    | cons p rest ih =>
      intro errs h
      obtain ⟨k, emsg, gt, hp, hnot⟩ := h p (List.mem_cons_self p rest)
      rw [List.foldl_cons]
      have step :
          (match Except.ok errs with
            | Except.error e => Except.error e
            | Except.ok errors =>
              match p.2 with
              | GroupReq.intReq _ => Except.error typeErrorMsg
              | GroupReq.dictReq required_count error_msg gtitle =>
                let group_scales := rating_scales.filter (fun s => s.group == Option.some p.1)
                let changed := changed_count scale_values group_scales
                if (changed : ℤ) < required_count then
                  let msg :=
                    if error_msg.getD "" ≠ "" then error_msg.getD ""
                    else default_group_msg (gtitle.getD p.1) required_count changed
                  Except.ok (errors ++ [msg])
                else Except.ok errors : Except String (List String)) = Except.ok errs := by
        rw [hp]
        simp only [if_neg hnot]
      rw [step]
      exact ih errs (fun q hq => h q (List.mem_cons_of_mem p hq))
  intro reqs h
  exact main reqs [] h

/-- C4: whenever exactly one individually-required scale title has an empty
or missing submitted value and every declared group requirement (in the
dict shape the validator reads) has its quorum met, the validator returns
exactly one error entry: the aggregated required-fields line listing only
that title. -/
theorem c4_single_missing_required (required_scales : List String)
    (reqs : List (String × GroupReq)) (rating_scales : List Scale)
    (scale_values : List (String × RValue)) (t : String)
    (hmiss : required_scales.filter
      (fun x => rvalue_is_empty (lookupV scale_values x)) = [t])
    (hgroups : ∀ p ∈ reqs, ∃ k emsg gt, p.2 = GroupReq.dictReq k emsg gt ∧
      ¬ ((changed_count scale_values
          (rating_scales.filter (fun s => s.group == Option.some p.1)) : ℤ) < k)) :
    validate_ratings required_scales reqs rating_scales scale_values =
      Except.ok ["Required fields: " ++ t] := by
  unfold validate_ratings
  rw [validate_groups_ok_of_met scale_values rating_scales reqs hgroups, hmiss]
  simp [intercalate_single]

/-- Witness for C4: a required text scale `Comments` left empty next to a
fully-satisfied discrete group. -/
theorem c4_single_missing_required_witness :
    validate_ratings ["Comments"]
      [("g1", GroupReq.dictReq 1 Option.none (Option.some "Emotions"))]
      [{ title := "Joy", stype := Option.some "discrete",
         active := Option.some true, group := Option.some "g1" }]
      [("Joy", RValue.str "3")] =
      Except.ok ["Required fields: Comments"] := by
  refine c4_single_missing_required ["Comments"]
    [("g1", GroupReq.dictReq 1 Option.none (Option.some "Emotions"))]
    [{ title := "Joy", stype := Option.some "discrete",
       active := Option.some true, group := Option.some "g1" }]
    [("Joy", RValue.str "3")] "Comments" (by decide) ?_
  intro p hp
  refine ⟨1, Option.none, Option.some "Emotions", ?_, ?_⟩
  · rcases List.mem_singleton.mp hp with rfl
    rfl
  · rcases List.mem_singleton.mp hp with rfl
    decide

/-! ## C9 -/

/-- C9: an active scale whose config omits `required_to_proceed` and that
has no group is individually required — its title appears in the
required-titles list — and an empty or missing value for it makes the
validator return a non-empty error list, blocking submission. -/
theorem c9_required_default (rating_scales : List Scale) (s : Scale)
    (reqs : List (String × GroupReq)) (scale_values : List (String × RValue))
    (hs : s ∈ rating_scales) (hreq : s.required_to_proceed = Option.none)
    (hgrp : s.group = Option.none)
    (hempty : rvalue_is_empty (lookupV scale_values s.title) = true) :
    s.title ∈ required_scale_titles rating_scales
    ∧ ∀ errs, validate_ratings (required_scale_titles rating_scales) reqs
        rating_scales scale_values = Except.ok errs → errs ≠ [] := by
  have hmem : s.title ∈ required_scale_titles rating_scales := by
    unfold required_scale_titles
    refine List.mem_map_of_mem (fun sc : Scale => sc.title) ?_
    rw [List.mem_filter]
    refine ⟨hs, ?_⟩
    rw [hreq, hgrp]
    rfl
  refine ⟨hmem, ?_⟩
  intro errs h
  simp only [validate_ratings] at h
  have hmm : s.title ∈ (required_scale_titles rating_scales).filter
      (fun x => rvalue_is_empty (lookupV scale_values x)) :=
    List.mem_filter.mpr ⟨hmem, hempty⟩
  have hne : ((required_scale_titles rating_scales).filter
      (fun x => rvalue_is_empty (lookupV scale_values x))).isEmpty = false := by
    cases hfe : (required_scale_titles rating_scales).filter
        (fun x => rvalue_is_empty (lookupV scale_values x)) with
    | nil => rw [hfe] at hmm; exact absurd hmm (List.not_mem_nil _)
    | cons a l => rfl
  rw [hne] at h
  cases hg : validate_groups scale_values rating_scales reqs with
  | error e =>
    rw [hg] at h
    exact absurd h (by simp)
  | ok gerrs =>
    rw [hg] at h
    simp only [Bool.false_eq_true, if_false, Except.ok.injEq] at h
    subst h
    exact List.cons_ne_nil _ _

/-- Witness for C9: a scale `Comments` with no `required_to_proceed` key and
no group, submitted with no value. -/
theorem c9_required_default_witness :
    ("Comments" : String) ∈ required_scale_titles
      [{ title := "Comments", stype := Option.some "text",
         active := Option.some true }]
    ∧ (["Required fields: Comments"] : List String) ≠ [] := by
  have h := c9_required_default
    [{ title := "Comments", stype := Option.some "text",
       active := Option.some true }]
    { title := "Comments", stype := Option.some "text",
      active := Option.some true }
    [] [] (List.mem_singleton.mpr rfl) rfl rfl (by decide)
  exact ⟨h.1, h.2 ["Required fields: Comments"] rfl⟩

/-! ## C10 -/

/-- C10: with a non-empty pool, a non-empty stratification config, and no
pool identifier present in the metadata id column, the sampler returns the
input pool unchanged — no truncation to the target and no shuffle. -/
theorem c10_no_metadata_returns_pool (samp : SampOracle) (sampL : SampListOracle)
    (shuffle : ShuffleOracle) (videos_to_rate : List String) (df_metadata : DFrame)
    (number_of_videos : Option ℤ) (strat_config : List StratEntry)
    (hcfg : strat_config ≠ []) (hpool : videos_to_rate ≠ [])
    (hnone : ∀ r ∈ df_metadata.rows,
      getCell r "id" ∉ videos_to_rate.map pyStripMp4) :
    stratified_sample_videos samp sampL shuffle videos_to_rate df_metadata
      number_of_videos strat_config = videos_to_rate := by
  have hce : strat_config.isEmpty = false := by
    cases strat_config with
    | nil => exact absurd rfl hcfg
    | cons a l => rfl
  have hfe : df_metadata.rows.filter
      (fun r => (videos_to_rate.map pyStripMp4).contains (getCell r "id")) = [] := by
    rw [List.filter_eq_nil_iff]
    intro r hr hcont
    exact hnone r hr (List.elem_iff.mp hcont)
  simp only [stratified_sample_videos, hce, Bool.false_eq_true, if_false, hfe]
  rfl

/-- Witness for C10: a one-video pool whose id does not occur in a one-row
metadata table. -/
theorem c10_no_metadata_returns_pool_witness :
    stratified_sample_videos take_samp take_sampL id_shuffle ["x.mp4"]
      ⟨["id", "grp"], [[("id", "y"), ("grp", "a")]]⟩ (Option.some 1)
      [{ var := Option.some "grp", levels := ["a"], proportions := [1] }] =
      ["x.mp4"] :=
  c10_no_metadata_returns_pool take_samp take_sampL id_shuffle ["x.mp4"]
    ⟨["id", "grp"], [[("id", "y"), ("grp", "a")]]⟩ (Option.some 1)
    [{ var := Option.some "grp", levels := ["a"], proportions := [1] }]
    (List.cons_ne_nil _ _) (List.cons_ne_nil _ _) (by decide)

/-! ## C8 -/

/-- C8 (amended): when the stratification entry at the current level has a
falsy variable, empty levels or proportions, mismatched lengths, an unknown
variable, or no candidate matching its levels, the sampler returns normally
with the Python slice `ids[:target_count]` of the unfiltered candidate ids
— which is the first `target_count` ids when the target is a positive
count, but the **entire** candidate set when the target is `None` or `0`
(Python falsiness), not an empty one. -/
theorem c8_degrade_fallback (samp : SampOracle) (df : DFrame) (e : StratEntry)
    (rest : List StratEntry) (target_count : Option ℤ)
    (hbad : optStrFalsy e.var = true ∨ e.levels = [] ∨ e.proportions = [] ∨
      e.levels.length ≠ e.proportions.length ∨ (e.var.getD "") ∉ df.cols ∨
      df.rows.filter
        (fun r => e.levels.contains (getCell r (e.var.getD ""))) = []) :
    (stratified_sample_recursive samp df (e :: rest) target_count =
      (match target_count with
       | Option.some n =>
           if n ≠ 0 then pySlice n (df.rows.map (fun r => getCell r "id"))
           else df.rows.map (fun r => getCell r "id")
       | Option.none => df.rows.map (fun r => getCell r "id")))
    ∧ ((target_count = Option.none ∨ target_count = Option.some 0) →
        stratified_sample_recursive samp df (e :: rest) target_count =
          df.rows.map (fun r => getCell r "id"))
    ∧ (∀ n : ℤ, target_count = Option.some n → 0 < n →
        stratified_sample_recursive samp df (e :: rest) target_count =
          (df.rows.map (fun r => getCell r "id")).take n.toNat) := by
  have hmain : stratified_sample_recursive samp df (e :: rest) target_count =
      (match target_count with
       | Option.some n =>
           if n ≠ 0 then pySlice n (df.rows.map (fun r => getCell r "id"))
           else df.rows.map (fun r => getCell r "id")
       | Option.none => df.rows.map (fun r => getCell r "id")) := by
    simp only [stratified_sample_recursive]
    by_cases h1 : (optStrFalsy e.var || e.levels.isEmpty || e.proportions.isEmpty) = true
    · rw [if_pos h1]
    · rw [if_neg h1]
      by_cases h2 : e.levels.length ≠ e.proportions.length
      · rw [if_pos h2]
      · rw [if_neg h2]
        by_cases h3 : (e.var.getD "") ∉ df.cols
        · rw [if_pos h3]
        · rw [if_neg h3]
          have h4 : (df.rows.filter
              (fun r => e.levels.contains (getCell r (e.var.getD "")))).isEmpty = true := by
            rw [List.isEmpty_iff]
            rcases hbad with hb | hb | hb | hb | hb | hb
            · exact absurd (by simp [hb] :
                (optStrFalsy e.var || e.levels.isEmpty || e.proportions.isEmpty) = true) h1
            · exact absurd (by simp [hb] :
                (optStrFalsy e.var || e.levels.isEmpty || e.proportions.isEmpty) = true) h1
            · exact absurd (by simp [hb] :
                (optStrFalsy e.var || e.levels.isEmpty || e.proportions.isEmpty) = true) h1
            · exact absurd hb h2
            · exact absurd hb h3
            · exact hb
          rw [if_pos h4]
  refine ⟨hmain, ?_, ?_⟩
  · intro ht
    rcases ht with rfl | rfl
    · exact hmain
    · rw [hmain]
      simp
  · intro n ht hpos
    subst ht
    rw [hmain]
    have hne : n ≠ 0 := by omega
    simp only [hne, if_true, pySlice, if_pos (le_of_lt hpos)]
    simp [hne]

/-- Counterexample to C8 as stated: an invalid entry (missing variable) with
`target_count = 0` does not take "up to 0 items" — Python's falsiness test
on the target makes it return the whole candidate set. -/
theorem c8_counterexample :
    ¬ ((stratified_sample_recursive take_samp
        ⟨["id"], [[("id", "x1")], [("id", "x2")]]⟩
        [{ var := Option.none, levels := ["l"], proportions := [1] }]
        (Option.some 0)).length ≤ 0) := by decide

/-- Witness for C8 at a concrete input: a one-entry config naming an unknown
variable over a two-row frame, with target 1. -/
theorem c8_degrade_fallback_witness :
    (stratified_sample_recursive take_samp
        ⟨["id"], [[("id", "x1")], [("id", "x2")]]⟩
        [{ var := Option.some "missing", levels := ["l"], proportions := [1] }]
        (Option.some 1) =
      (match (Option.some 1 : Option ℤ) with
       | Option.some n =>
           if n ≠ 0 then pySlice n (["x1", "x2"])
           else ["x1", "x2"]
       | Option.none => ["x1", "x2"]))
    ∧ (((Option.some 1 : Option ℤ) = Option.none ∨
          (Option.some 1 : Option ℤ) = Option.some 0) →
        stratified_sample_recursive take_samp
          ⟨["id"], [[("id", "x1")], [("id", "x2")]]⟩
          [{ var := Option.some "missing", levels := ["l"], proportions := [1] }]
          (Option.some 1) = ["x1", "x2"])
    ∧ (∀ n : ℤ, (Option.some 1 : Option ℤ) = Option.some n → 0 < n →
        stratified_sample_recursive take_samp
          ⟨["id"], [[("id", "x1")], [("id", "x2")]]⟩
          [{ var := Option.some "missing", levels := ["l"], proportions := [1] }]
          (Option.some 1) = (["x1", "x2"] : List String).take n.toNat) := by
  have h := c8_degrade_fallback take_samp
    ⟨["id"], [[("id", "x1")], [("id", "x2")]]⟩
    { var := Option.some "missing", levels := ["l"], proportions := [1] }
    [] (Option.some 1)
    (Or.inr (Or.inr (Or.inr (Or.inr (Or.inl (by decide))))))
  exact h

/-! ## C1 -/

theorem pySlice_length_le (n : ℤ) (l : List String) : (pySlice n l).length ≤ l.length := by
  unfold pySlice
  split <;> (rw [List.length_take]; omega)

theorem sum_length_filter_le {α : Type} (f : α → String) :
    ∀ keys : List String, keys.Nodup → ∀ rows : List α,
      (keys.map (fun k => (rows.filter (fun r => f r == k)).length)).sum ≤ rows.length := by
  intro keys
  induction keys with
  | nil => intro _ rows; simp
  | cons k ks ih =>
    intro hk rows
    rw [List.nodup_cons] at hk
    rw [List.map_cons, List.sum_cons]
    have hsum_eq : (ks.map (fun k2 => (rows.filter (fun r => f r == k2)).length)).sum =
        (ks.map (fun k2 =>
          ((rows.filter (fun r => ! (f r == k))).filter (fun r => f r == k2)).length)).sum := by
      refine congrArg List.sum (List.map_congr_left ?_)
      intro k2 hk2
      have hne : k2 ≠ k := fun he => hk.1 (he ▸ hk2)
      have hflt : (rows.filter (fun r => ! (f r == k))).filter (fun r => f r == k2) =
          rows.filter (fun r => f r == k2) := by
        rw [List.filter_filter]
        refine List.filter_congr ?_
        intro r _
        by_cases hr : f r = k2
        · simp [hr, hne]
        · simp [hr]
      rw [hflt]
    rw [hsum_eq]
    have h1 := ih hk.2 (rows.filter (fun r => ! (f r == k)))
    have h2 : rows.length =
        (rows.filter (fun r => f r == k)).length +
          (rows.filter (fun r => ! (f r == k))).length :=
      List.length_eq_length_filter_add (fun r => f r == k)
    omega

theorem foldl_append_bound {β : Type} (step : List String → β → List String)
    (cost : β → ℕ) :
    ∀ l : List β, (∀ acc b, b ∈ l → (step acc b).length ≤ acc.length + cost b) →
      ∀ acc : List String, (l.foldl step acc).length ≤ acc.length + (l.map cost).sum := by
  intro l
  induction l with
  | nil => intro _ acc; simp
  | cons b bs ih =>
    intro hstep acc
    rw [List.foldl_cons, List.map_cons, List.sum_cons]
    have h1 := ih (fun acc2 b2 hb2 => hstep acc2 b2 (List.mem_cons_of_mem b hb2)) (step acc b)
    have h2 := hstep acc b (List.mem_cons_self b bs)
    omega


theorem fallback_length_le (t : Option ℤ) (ids : List String) :
    (match t with
     | Option.some n => if n ≠ 0 then pySlice n ids else ids
     | Option.none => ids).length ≤ ids.length := by
  cases t with
  | none => exact le_refl _
  | some n =>
    show (if n ≠ 0 then pySlice n ids else ids).length ≤ ids.length
    by_cases hn : n ≠ 0
    · rw [if_pos hn]
      exact pySlice_length_le n ids
    · rw [if_neg hn]

theorem stratified_sample_recursive_length_le (samp : SampOracle)
    (hs : SampOracleOK samp) :
    ∀ (cfg : List StratEntry) (df : DFrame) (t : Option ℤ),
      (∀ e ∈ cfg, (∀ p ∈ e.proportions, 0 ≤ p) ∧ e.levels.Nodup) →
      (∀ n : ℤ, t = Option.some n → 0 ≤ n) →
      (stratified_sample_recursive samp df cfg t).length ≤ df.rows.length := by
  intro cfg
  induction cfg with
  | nil =>
    intro df t _ ht
    simp only [stratified_sample_recursive]
    cases t with
    | none => simp
    | some n =>
      show (if n ≠ 0 ∧ n < (df.rows.length : ℤ)
          then (samp n df.rows).map (fun r => getCell r "id")
          else df.rows.map (fun r => getCell r "id")).length ≤ df.rows.length
      by_cases hc : n ≠ 0 ∧ n < (df.rows.length : ℤ)
      · rw [if_pos hc, List.length_map, (hs n df.rows (ht n rfl) hc.2).1]
        omega
      · rw [if_neg hc]
        simp
  | cons c rest ih =>
    intro df t hcfg ht
    simp only [stratified_sample_recursive]
    have hfallback : (match t with
        | Option.some n =>
            if n ≠ 0 then pySlice n (df.rows.map (fun r => getCell r "id"))
            else df.rows.map (fun r => getCell r "id")
        | Option.none => df.rows.map (fun r => getCell r "id")).length ≤
        df.rows.length := by
      calc (match t with
          | Option.some n =>
              if n ≠ 0 then pySlice n (df.rows.map (fun r => getCell r "id"))
              else df.rows.map (fun r => getCell r "id")
          | Option.none => df.rows.map (fun r => getCell r "id")).length
          ≤ (df.rows.map (fun r => getCell r "id")).length :=
            fallback_length_le t _
        _ = df.rows.length := List.length_map _ _
    by_cases h1 : (optStrFalsy c.var || c.levels.isEmpty || c.proportions.isEmpty) = true
    · rw [if_pos h1]
      exact hfallback
    · rw [if_neg h1]
      by_cases h2 : c.levels.length ≠ c.proportions.length
      · rw [if_pos h2]
        exact hfallback
      · rw [if_neg h2]
        by_cases h3 : (c.var.getD "") ∉ df.cols
        · rw [if_pos h3]
          exact hfallback
        · rw [if_neg h3]
          by_cases h4 : (df.rows.filter
              (fun r => c.levels.contains (getCell r (c.var.getD "")))).isEmpty = true
          · rw [if_pos h4]
            exact hfallback
          · rw [if_neg h4]
            refine le_trans
              (foldl_append_bound _
                (fun lp => ((df.rows.filter
                  (fun r => c.levels.contains (getCell r (c.var.getD "")))).filter
                    (fun r => getCell r (c.var.getD "") == lp.1)).length)
                (c.levels.zip c.proportions) ?_ []) ?_
            · intro acc lp hlp
              by_cases h0 : ((df.rows.filter
                  (fun r => c.levels.contains (getCell r (c.var.getD "")))).filter
                    (fun r => getCell r (c.var.getD "") == lp.1)).length = 0
              · rw [if_pos h0]
                omega
              · rw [if_neg h0, List.length_append]
                refine Nat.add_le_add_left ?_ acc.length
                refine ih
                  ⟨df.cols, (df.rows.filter
                    (fun r => c.levels.contains (getCell r (c.var.getD "")))).filter
                      (fun r => getCell r (c.var.getD "") == lp.1)⟩
                  _ (fun e he => hcfg e (List.mem_cons_of_mem c he)) ?_
                intro m hm
                cases t with
                | none => simp at hm
                | some n =>
                  have hnn : (0 : ℤ) ≤ n := ht n rfl
                  have hpp : (0 : ℚ) ≤ lp.2 :=
                    (hcfg c (List.mem_cons_self c rest)).1 lp.2 (List.of_mem_zip hlp).2
                  have hrnn : 0 ≤ pyRound ((n : ℚ) * lp.2) :=
                    pyRound_nonneg _ (mul_nonneg (by exact_mod_cast hnn) hpp)
                  generalize hLdef : ((df.rows.filter
                      (fun r => c.levels.contains (getCell r (c.var.getD "")))).filter
                        (fun r => getCell r (c.var.getD "") == lp.1)).length = L at hm
                  have hm1 : (match (if n ≠ 0 then Option.some (pyRound ((n : ℚ) * lp.2))
                      else (Option.none : Option ℤ)) with
                    | Option.some mm =>
                        if mm ≠ 0 ∧ (L : ℤ) < mm then Option.some (L : ℤ)
                        else Option.some mm
                    | Option.none => (Option.none : Option ℤ)) = Option.some m := hm
                  by_cases hn : n ≠ 0
                  · rw [if_pos hn] at hm1
                    have hm2 : (if pyRound ((n : ℚ) * lp.2) ≠ 0 ∧
                        (L : ℤ) < pyRound ((n : ℚ) * lp.2) then Option.some (L : ℤ)
                        else Option.some (pyRound ((n : ℚ) * lp.2))) = Option.some m := hm1
                    by_cases hcond : pyRound ((n : ℚ) * lp.2) ≠ 0 ∧
                        (L : ℤ) < pyRound ((n : ℚ) * lp.2)
                    · rw [if_pos hcond] at hm2
                      cases hm2
                      positivity
                    · rw [if_neg hcond] at hm2
                      cases hm2
                      exact hrnn
                  · rw [if_neg hn] at hm1
                    exact Option.noConfusion hm1
            · rw [List.length_nil, Nat.zero_add]
              have hmapeq : ((c.levels.zip c.proportions).map
                  (fun lp => ((df.rows.filter
                    (fun r => c.levels.contains (getCell r (c.var.getD "")))).filter
                      (fun r => getCell r (c.var.getD "") == lp.1)).length)) =
                  ((c.levels.zip c.proportions).map Prod.fst).map
                    (fun k => ((df.rows.filter
                      (fun r => c.levels.contains (getCell r (c.var.getD "")))).filter
                        (fun r => getCell r (c.var.getD "") == k)).length) := by
                rw [List.map_map]
                rfl
              rw [hmapeq]
              have hfst : (c.levels.zip c.proportions).map Prod.fst = c.levels := by
                push_neg at h2
                exact List.map_fst_zip c.levels c.proportions h2.le
              rw [hfst]
              calc (c.levels.map
                  (fun k => ((df.rows.filter
                    (fun r => c.levels.contains (getCell r (c.var.getD "")))).filter
                      (fun r => getCell r (c.var.getD "") == k)).length)).sum
                  ≤ (df.rows.filter
                      (fun r => c.levels.contains (getCell r (c.var.getD "")))).length :=
                    sum_length_filter_le (fun r => getCell r (c.var.getD ""))
                      c.levels (hcfg c (List.mem_cons_self c rest)).2 _
                _ ≤ df.rows.length := List.length_filter_le _ _

/-- C1 (amended): for every pool, well-formed metadata (pairwise-distinct
ids), and stratification config with nonnegative proportions, duplicate-free
levels, proportions summing to 1 within 0.01, and levels covered by the
pool, the sampler's output never exceeds the **pool size** for any outcome
of the random primitives.  The claimed second bound — never exceeding the
target — is false: per-level `round` can overshoot (see
`c1_counterexample`), as §4.1 of the spec itself concedes. -/
theorem c1_pool_size_bound (samp : SampOracle) (sampL : SampListOracle)
    (shuffle : ShuffleOracle) (hs : SampOracleOK samp) (hsl : SampListOK sampL)
    (hsh : ShuffleOK shuffle) (videos_to_rate : List String)
    (df_metadata : DFrame) (number_of_videos : Option ℤ)
    (strat_config : List StratEntry)
    (hn : ∀ n : ℤ, number_of_videos = Option.some n → 0 ≤ n)
    (hcfg : ∀ e ∈ strat_config, (∀ p ∈ e.proportions, 0 ≤ p) ∧ e.levels.Nodup)
    (hsum : ∀ e ∈ strat_config, |e.proportions.sum - 1| ≤ 1/100)
    (hcover : ∀ e ∈ strat_config, ∀ lv ∈ e.levels, ∃ r ∈ df_metadata.rows,
      getCell r (e.var.getD "") = lv ∧
        getCell r "id" ∈ videos_to_rate.map pyStripMp4)
    (hids : (df_metadata.rows.map (fun r => getCell r "id")).Nodup) :
    (stratified_sample_videos samp sampL shuffle videos_to_rate df_metadata
      number_of_videos strat_config).length ≤ videos_to_rate.length := by
  simp only [stratified_sample_videos]
  by_cases hce : strat_config.isEmpty = true
  · rw [if_pos hce]
    cases number_of_videos with
    | none => rw [(hsh videos_to_rate).length_eq]
    | some n =>
      show (if n ≠ 0 ∧ n < (videos_to_rate.length : ℤ)
          then shuffle (sampL n videos_to_rate)
          else shuffle videos_to_rate).length ≤ videos_to_rate.length
      by_cases hc : n ≠ 0 ∧ n < (videos_to_rate.length : ℤ)
      · rw [if_pos hc, (hsh _).length_eq, (hsl n videos_to_rate (hn n rfl) hc.2).1]
        omega
      · rw [if_neg hc, (hsh _).length_eq]
  · rw [if_neg hce]
    by_cases hdf : (df_metadata.rows.filter
        (fun r => (videos_to_rate.map pyStripMp4).contains (getCell r "id"))).isEmpty = true
    · rw [if_pos hdf]
    · rw [if_neg hdf]
      have hsub : (df_metadata.rows.filter
          (fun r => (videos_to_rate.map pyStripMp4).contains (getCell r "id"))).length ≤
          videos_to_rate.length := by
        have hnd : ((df_metadata.rows.filter
            (fun r => (videos_to_rate.map pyStripMp4).contains (getCell r "id"))).map
              (fun r => getCell r "id")).Nodup :=
          hids.sublist ((List.filter_sublist _).map (fun r => getCell r "id"))
        have hss : ((df_metadata.rows.filter
            (fun r => (videos_to_rate.map pyStripMp4).contains (getCell r "id"))).map
              (fun r => getCell r "id")) ⊆ videos_to_rate.map pyStripMp4 := by
          intro x hx
          rcases List.mem_map.mp hx with ⟨r, hr, rfl⟩
          rcases List.mem_filter.mp hr with ⟨_, hcont⟩
          exact List.elem_iff.mp hcont
        have hlen := (hnd.subperm hss).length_le
        rw [List.length_map, List.length_map] at hlen
        exact hlen
      rw [(hsh _).length_eq, List.length_map]
      refine le_trans
        (stratified_sample_recursive_length_le samp hs strat_config _ _ hcfg ?_) hsub
      intro m hm
      cases hm
      refine le_min ?_ (Int.natCast_nonneg _)
      cases number_of_videos with
      | none => exact Int.natCast_nonneg _
      | some n =>
        show (0 : ℤ) ≤ if n ≠ 0 then n
          else ((df_metadata.rows.filter
            (fun r => (videos_to_rate.map pyStripMp4).contains
              (getCell r "id"))).length : ℤ)
        by_cases hnz : n ≠ 0
        · rw [if_pos hnz]
          exact hn n rfl
        · rw [if_neg hnz]
          exact Int.natCast_nonneg _

/-- Counterexample to C1 as stated: target 5, proportions 0.32/0.32/0.36
(summing to exactly 1) over three fully-covered levels of two videos each.
Each per-level quota rounds 1.6 or 1.8 up to 2, so the sampler returns all
6 videos — exceeding the target 5. -/
theorem c1_counterexample :
    (∀ e ∈ cfg_c1, |e.proportions.sum - 1| ≤ 1/100)
    ∧ (∀ e ∈ cfg_c1, ∀ lv ∈ e.levels, ∃ r ∈ md_c1.rows,
        getCell r (e.var.getD "") = lv ∧ getCell r "id" ∈ pool_c1.map pyStripMp4)
    ∧ SampOracleOK take_samp ∧ SampListOK take_sampL ∧ ShuffleOK id_shuffle
    ∧ ¬ ((stratified_sample_videos take_samp take_sampL id_shuffle pool_c1 md_c1
        (Option.some 5) cfg_c1).length ≤ 5) := by
  refine ⟨?_, ?_, take_samp_ok, take_sampL_ok, id_shuffle_ok, ?_⟩
  · intro e he
    simp only [cfg_c1, List.mem_singleton] at he
    subst he
    norm_num
  · intro e he lv hlv
    simp only [cfg_c1, List.mem_singleton] at he
    subst he
    simp only [List.mem_cons, List.not_mem_nil, or_false] at hlv
    rcases hlv with rfl | rfl | rfl <;> decide
  · have h1 : pyRound ((5 : ℚ) * (8/25)) = 2 := by norm_num [pyRound]
    have h2 : pyRound ((5 : ℚ) * (9/25)) = 2 := by norm_num [pyRound]
    simp +decide [stratified_sample_videos, stratified_sample_recursive, h1, h2,
      getCell, pySlice, pyStripMp4, stripMp4Chars, take_samp, take_sampL,
      id_shuffle, pool_c1, md_c1, cfg_c1, optStrFalsy]

/-- Witness for C1 (amended) at a concrete input: a one-video pool with a
one-entry stratification. -/
theorem c1_pool_size_bound_witness :
    SampOracleOK take_samp
    ∧ (stratified_sample_videos take_samp take_sampL id_shuffle ["a.mp4"]
        ⟨["id", "g"], [[("id", "a"), ("g", "x")]]⟩ (Option.some 1)
        [{ var := Option.some "g", levels := ["x"], proportions := [1] }]).length ≤
      (["a.mp4"] : List String).length := by
  refine ⟨take_samp_ok, ?_⟩
  refine c1_pool_size_bound take_samp take_sampL id_shuffle take_samp_ok
    take_sampL_ok id_shuffle_ok ["a.mp4"]
    ⟨["id", "g"], [[("id", "a"), ("g", "x")]]⟩ (Option.some 1)
    [{ var := Option.some "g", levels := ["x"], proportions := [1] }]
    ?_ ?_ ?_ ?_ ?_
  · intro n h
    cases h
    decide
  · intro e he
    simp only [List.mem_singleton] at he
    subst he
    constructor
    · intro p hp
      simp only [List.mem_singleton] at hp
      subst hp
      norm_num
    · simp
  · intro e he
    simp only [List.mem_singleton] at he
    subst he
    norm_num
  · intro e he lv hlv
    simp only [List.mem_singleton] at he
    subst he
    simp only [List.mem_singleton] at hlv
    subst hlv
    decide
  · decide

/-! ## C3 -/

/-- C3: on the ten-video pool (six tagged `win`, four tagged `loss`) with
target 4 and a 0.5/0.5 two-level stratification on `outcome`, the sampler
returns exactly 4 filenames, of which exactly 2 are win-tagged and exactly 2
loss-tagged in the metadata — for every outcome of the random sampling and
shuffling. -/
theorem c3_two_level_balanced_sampling (samp : SampOracle)
    (sampL : SampListOracle) (shuffle : ShuffleOracle)
    (hs : SampOracleOK samp) (hsh : ShuffleOK shuffle) :
    (c3_result samp sampL shuffle).length = 4
    ∧ (c3_result samp sampL shuffle).countP
        (tagged_with md_c3 "outcome" "win") = 2
    ∧ (c3_result samp sampL shuffle).countP
        (tagged_with md_c3 "outcome" "loss") = 2 := by
  have h12 : pyRound ((4 : ℚ) * 2⁻¹) = 2 := by norm_num [pyRound]
  have hkey : c3_result samp sampL shuffle =
      shuffle
        ((samp 2 win_rows_c3).map (fun r => getCell r "id" ++ ".mp4") ++
          (samp 2 loss_rows_c3).map (fun r => getCell r "id" ++ ".mp4")) := by
    simp +decide [c3_result, stratified_sample_videos, stratified_sample_recursive,
      h12, getCell, pyStripMp4, stripMp4Chars, pool_c3, md_c3, cfg_c3, optStrFalsy,
      Function.comp_def, win_rows_c3, loss_rows_c3]
  have hw := hs 2 win_rows_c3 (by decide) (by decide)
  have hl := hs 2 loss_rows_c3 (by decide) (by decide)
  have hwmem : ∀ r ∈ samp 2 win_rows_c3, r ∈ win_rows_c3 :=
    fun r hr => hw.2.subset hr
  have hlmem : ∀ r ∈ samp 2 loss_rows_c3, r ∈ loss_rows_c3 :=
    fun r hr => hl.2.subset hr
  have hwin_tag : ∀ r ∈ win_rows_c3,
      tagged_with md_c3 "outcome" "win" (getCell r "id" ++ ".mp4") = true := by decide
  have hwin_notloss : ∀ r ∈ win_rows_c3,
      tagged_with md_c3 "outcome" "loss" (getCell r "id" ++ ".mp4") = false := by decide
  have hloss_tag : ∀ r ∈ loss_rows_c3,
      tagged_with md_c3 "outcome" "loss" (getCell r "id" ++ ".mp4") = true := by decide
  have hloss_notwin : ∀ r ∈ loss_rows_c3,
      tagged_with md_c3 "outcome" "win" (getCell r "id" ++ ".mp4") = false := by decide
  refine ⟨?_, ?_, ?_⟩
  · rw [hkey, (hsh _).length_eq, List.length_append, List.length_map,
      List.length_map, hw.1, hl.1]
    decide
  · rw [hkey, (hsh _).countP_eq, List.countP_append, List.countP_map,
      List.countP_map]
    have hcw : (samp 2 win_rows_c3).countP
        ((tagged_with md_c3 "outcome" "win") ∘ (fun r => getCell r "id" ++ ".mp4")) =
        (samp 2 win_rows_c3).length :=
      List.countP_eq_length.mpr (fun r hr => hwin_tag r (hwmem r hr))
    have hcl : (samp 2 loss_rows_c3).countP
        ((tagged_with md_c3 "outcome" "win") ∘ (fun r => getCell r "id" ++ ".mp4")) = 0 := by
      rw [List.countP_eq_zero]
      intro r hr
      simp only [Function.comp_apply]
      rw [hloss_notwin r (hlmem r hr)]
      exact Bool.false_ne_true
    rw [hcw, hcl, hw.1]
    decide
  · rw [hkey, (hsh _).countP_eq, List.countP_append, List.countP_map,
      List.countP_map]
    have hcw : (samp 2 win_rows_c3).countP
        ((tagged_with md_c3 "outcome" "loss") ∘ (fun r => getCell r "id" ++ ".mp4")) = 0 := by
      rw [List.countP_eq_zero]
      intro r hr
      simp only [Function.comp_apply]
      rw [hwin_notloss r (hwmem r hr)]
      exact Bool.false_ne_true
    have hcl : (samp 2 loss_rows_c3).countP
        ((tagged_with md_c3 "outcome" "loss") ∘ (fun r => getCell r "id" ++ ".mp4")) =
        (samp 2 loss_rows_c3).length :=
      List.countP_eq_length.mpr (fun r hr => hloss_tag r (hlmem r hr))
    rw [hcw, hcl, hl.1]
    decide

/-- Witness for C3: the deterministic take-based oracles. -/
theorem c3_two_level_balanced_sampling_witness :
    (c3_result take_samp take_sampL id_shuffle).length = 4
    ∧ (c3_result take_samp take_sampL id_shuffle).countP
        (tagged_with md_c3 "outcome" "win") = 2
    ∧ (c3_result take_samp take_sampL id_shuffle).countP
        (tagged_with md_c3 "outcome" "loss") = 2 :=
  c3_two_level_balanced_sampling take_samp take_sampL id_shuffle
    take_samp_ok id_shuffle_ok

/-- C4 (code-bug evidence): in the claimed scenario — a declared group whose
quorum 1 is met by the discrete scale `Joy`, and the individually-required
text scale `Comments` empty — the pipeline built by `load_rating_scales`
makes `_validate_ratings` raise the group-requirement `TypeError` instead of
returning the single aggregated line `Required fields: Comments` (which
`c4_single_missing_required` shows it would return with the dict-shaped
requirements the validator's own code expects). -/
theorem c4_pipeline_type_error :
    changed_count vals_c4
      ((load_rating_scales_data groups_c4 scales_c4).1.filter
        (fun s => s.group == Option.some "emotions")) = 1
    ∧ required_scale_titles (load_rating_scales_data groups_c4 scales_c4).1 =
      ["Comments"]
    ∧ validate_ratings
        (required_scale_titles (load_rating_scales_data groups_c4 scales_c4).1)
        (load_rating_scales_data groups_c4 scales_c4).2
        (load_rating_scales_data groups_c4 scales_c4).1 vals_c4 =
      Except.error typeErrorMsg :=
  ⟨rfl, rfl, rfl⟩
